import Mathlib

/-!
Formal model of the InstaFrame image pipeline.

The repository composites arbitrary-aspect source bitmaps onto a fixed
1080×1080 white canvas with a 0.9 padding fraction, supports an interactive
crop that maps displayed coordinates back to native pixels, and manages an
ordered gallery of processed images.  All geometric quantities are modelled
over ℚ (browser numbers here are exact decimal/rational values), bitmaps by
their geometric layout, and the React component state by an explicit record
with the event handlers as state-transition functions.
-/

/-- Square output canvas side hardcoded by every compositing call (1080). -/
def canvasSize : ℚ := 1080

/-- Padding fraction hardcoded by every compositing call (0.9, a 10% border). -/
def padding : ℚ := 9 / 10

/-- Geometry of one composited frame: the allocated canvas dimensions and the
rectangle the source bitmap is drawn into. -/
structure ComposedLayout where
  canvasW : ℚ
  canvasH : ℚ
  drawWidth : ℚ
  drawHeight : ℚ
  x : ℚ
  y : ℚ
deriving DecidableEq

/-- Embeds the compositing geometry of processImageDataUrl (src/App.tsx,
lines 207–227) and the identical processAndSetImage (src/unnamed/part_000,
lines 201–223): the canvas is sized 1080×1080, and the branch is on
aspect > 1 where aspect = image.width / image.height. -/
def processImageLayout (w h : ℚ) : ComposedLayout :=
  let aspect := w / h
  let drawWidth := if aspect > 1 then canvasSize * padding else (canvasSize * padding) * aspect
  let drawHeight := if aspect > 1 then (canvasSize * padding) / aspect else canvasSize * padding
  { canvasW := canvasSize
    canvasH := canvasSize
    drawWidth := drawWidth
    drawHeight := drawHeight
    x := (canvasSize - drawWidth) / 2
    y := (canvasSize - drawHeight) / 2 }

/-- Embeds the compositing geometry of addBorderToImage
(src/unnamed/part_001, lines 287–301), whose branch is on
image.width > image.height rather than aspect > 1. -/
def addBorderLayout (w h : ℚ) : ComposedLayout :=
  let aspect := w / h
  let drawWidth := if w > h then canvasSize * padding else (canvasSize * padding) * aspect
  let drawHeight := if w > h then (canvasSize * padding) / aspect else canvasSize * padding
  { canvasW := canvasSize
    canvasH := canvasSize
    drawWidth := drawWidth
    drawHeight := drawHeight
    x := (canvasSize - drawWidth) / 2
    y := (canvasSize - drawHeight) / 2 }

/-- With a positive height the two compositing implementations branch the same
way (aspect > 1 ↔ width > height) and so agree. -/
theorem addBorderLayout_eq_processImageLayout (w h : ℚ) (hh : 0 < h) :
    addBorderLayout w h = processImageLayout w h := by
  unfold addBorderLayout processImageLayout
  simp only [gt_iff_lt, one_lt_div hh]

/-- C1: composing a 1600×900 source with canvasSize = 1080 and padding = 0.9
yields drawWidth = 972, drawHeight = 546.75, drawn at x = 54, y = 266.625 on
the 1080×1080 canvas; both compositing implementations agree on this input. -/
theorem C1_compositor_1600x900 :
    processImageLayout 1600 900 =
      { canvasW := 1080, canvasH := 1080, drawWidth := 972, drawHeight := 546.75,
        x := 54, y := 266.625 } ∧
    addBorderLayout 1600 900 = processImageLayout 1600 900 := by
  have h1 : (1600 : ℚ) / 900 > 1 := by norm_num
  have h2 : (1600 : ℚ) > 900 := by norm_num
  constructor
  · simp only [processImageLayout, if_pos h1, ComposedLayout.mk.injEq, canvasSize, padding]
    norm_num
  · simp only [processImageLayout, addBorderLayout, if_pos h1, if_pos h2]

/-- C2: whatever the source dimensions, both compositing implementations
allocate an output canvas of exactly canvasSize × canvasSize = 1080 × 1080. -/
theorem C2_output_square_fixed (w h : ℚ) :
    (processImageLayout w h).canvasW = 1080 ∧ (processImageLayout w h).canvasH = 1080 ∧
    (addBorderLayout w h).canvasW = 1080 ∧ (addBorderLayout w h).canvasH = 1080 :=
  ⟨rfl, rfl, rfl, rfl⟩

/-- C3 counterexample: the 1600×900 source has width ≥ height, yet its
drawHeight is 546.75, not canvasSize * padding = 972 — the claim's equations
hold for the portrait/square branch (width ≤ height), not for width ≥ height. -/
theorem C3_cex_wide_image :
    (900 : ℚ) ≤ 1600 ∧ (processImageLayout 1600 900).drawHeight ≠ canvasSize * padding := by
  have h1 : (1600 : ℚ) / 900 > 1 := by norm_num
  refine ⟨by norm_num, ?_⟩
  simp only [processImageLayout, if_pos h1, canvasSize, padding]
  norm_num

/-- C3 amended: for every source with width ≥ height (positive height), the
drawn rectangle satisfies drawWidth = canvasSize * padding and
drawWidth = drawHeight * aspect, with drawWidth ≤ canvasSize. -/
theorem C3_wide_image_draw_rect (w h : ℚ) (hh : 0 < h) (hwh : h ≤ w) :
    (processImageLayout w h).drawWidth = canvasSize * padding ∧
    (processImageLayout w h).drawWidth = (processImageLayout w h).drawHeight * (w / h) ∧
    (processImageLayout w h).drawWidth ≤ canvasSize := by
  have ha : (1 : ℚ) ≤ w / h := (one_le_div hh).mpr hwh
  by_cases hgt : (1 : ℚ) < w / h
  · have hne : w / h ≠ 0 := ne_of_gt (lt_trans one_pos hgt)
    simp only [processImageLayout, gt_iff_lt, if_pos hgt]
    refine ⟨by trivial, (div_mul_cancel₀ _ hne).symm,
      by unfold canvasSize padding; norm_num⟩
  · have heq : w / h = 1 := le_antisymm (not_lt.mp hgt) ha
    simp only [processImageLayout, gt_iff_lt, if_neg hgt, heq, mul_one]
    refine ⟨by trivial, by trivial, by unfold canvasSize padding; norm_num⟩

/-- Witness for C3 amended at the concrete 1600×900 source. -/
theorem C3_wide_image_draw_rect_witness :
    ((0 : ℚ) < 900 ∧ (900 : ℚ) ≤ 1600) ∧
    ((processImageLayout 1600 900).drawWidth = canvasSize * padding ∧
     (processImageLayout 1600 900).drawWidth =
       (processImageLayout 1600 900).drawHeight * (1600 / 900) ∧
     (processImageLayout 1600 900).drawWidth ≤ canvasSize) :=
  ⟨⟨by norm_num, by norm_num⟩,
    C3_wide_image_draw_rect 1600 900 (by norm_num) (by norm_num)⟩

/-- Rectangle in displayed (on-screen) pixel coordinates, as handed to the
crop code by the react-image-crop selection (a PixelCrop). -/
structure PixelCrop where
  x : ℚ
  y : ℚ
  width : ℚ
  height : ℚ
deriving DecidableEq

/-- Geometry of the bitmap produced by one crop: the allocated output canvas
dimensions and the native-space source rectangle copied onto it at origin. -/
structure CroppedBitmap where
  outWidth : ℤ
  outHeight : ℤ
  srcX : ℚ
  srcY : ℚ
  srcW : ℚ
  srcH : ℚ
deriving DecidableEq

/-- Embeds getCroppedImg (src/unnamed/part_001, lines 229–256).  The only
throw in the function is the missing 2d context, modelled by ctxOk.
Otherwise it computes scaleX = image.naturalWidth / image.width and
scaleY = image.naturalHeight / image.height (displayed dimensions), sizes the
output canvas with Math.floor of the scaled crop extent, and copies the
scaled source rectangle to the origin.  No bounds validation is performed. -/
def getCroppedImg (ctxOk : Bool) (naturalWidth naturalHeight dispW dispH : ℚ)
    (crop : PixelCrop) : Except String CroppedBitmap :=
  if ¬ ctxOk then .error "Could not get canvas context for cropping."
  else
    let scaleX := naturalWidth / dispW
    let scaleY := naturalHeight / dispH
    .ok { outWidth := ⌊crop.width * scaleX⌋
          outHeight := ⌊crop.height * scaleY⌋
          srcX := crop.x * scaleX
          srcY := crop.y * scaleY
          srcW := crop.width * scaleX
          srcH := crop.height * scaleY }

/-- C4: the crop transform scales the displayed-space region by
nativeWidth / displayedWidth and nativeHeight / displayedHeight, allocates a
floor-sized output bitmap and copies the scaled native rectangle; on the
concrete scenario (400×400 native displayed at 200×200, region
{10, 10, 50, 50}) the native region is {20, 20, 100, 100} and the output
bitmap is exactly 100×100. -/
theorem C4_crop_transform_geometry (nw nh dw dh : ℚ) (crop : PixelCrop) :
    getCroppedImg true nw nh dw dh crop =
      .ok { outWidth := ⌊crop.width * (nw / dw)⌋
            outHeight := ⌊crop.height * (nh / dh)⌋
            srcX := crop.x * (nw / dw)
            srcY := crop.y * (nh / dh)
            srcW := crop.width * (nw / dw)
            srcH := crop.height * (nh / dh) } ∧
    getCroppedImg true 400 400 200 200 ⟨10, 10, 50, 50⟩ =
      .ok { outWidth := 100, outHeight := 100,
            srcX := 20, srcY := 20, srcW := 100, srcH := 100 } := by
  refine ⟨rfl, ?_⟩
  have h : getCroppedImg true 400 400 200 200 ⟨10, 10, 50, 50⟩ =
      .ok { outWidth := ⌊(50 : ℚ) * (400 / 200)⌋
            outHeight := ⌊(50 : ℚ) * (400 / 200)⌋
            srcX := 10 * (400 / 200), srcY := 10 * (400 / 200)
            srcW := 50 * (400 / 200), srcH := 50 * (400 / 200) } := rfl
  rw [h]
  simp only [Except.ok.injEq, CroppedBitmap.mk.injEq]
  norm_num

/-- C6 counterexample: the region {-10, 0, 250, 50} exceeds the 200×200
displayed bounds on the left and the right, yet getCroppedImg succeeds and
returns a 500×100 bitmap taken from native rectangle {-20, 0, 500, 100} —
it neither clamps nor fails with any OutOfBoundsError (no such error exists
in the code). -/
theorem C6_cex_out_of_bounds_ok :
    ((-10 : ℚ) < 0 ∧ (200 : ℚ) < -10 + 250) ∧
    getCroppedImg true 400 400 200 200 ⟨-10, 0, 250, 50⟩ =
      .ok { outWidth := 500, outHeight := 100,
            srcX := -20, srcY := 0, srcW := 500, srcH := 100 } := by
  refine ⟨⟨by norm_num, by norm_num⟩, ?_⟩
  have h : getCroppedImg true 400 400 200 200 ⟨-10, 0, 250, 50⟩ =
      .ok { outWidth := ⌊(250 : ℚ) * (400 / 200)⌋
            outHeight := ⌊(50 : ℚ) * (400 / 200)⌋
            srcX := -10 * (400 / 200), srcY := 0 * (400 / 200)
            srcW := 250 * (400 / 200), srcH := 50 * (400 / 200) } := rfl
  rw [h]
  simp only [Except.ok.injEq, CroppedBitmap.mk.injEq]
  norm_num

/-- C6 amended: getCroppedImg performs no bounds validation at all — for any
region exceeding the displayed bounds (and an available context) it still
succeeds, producing the floor-sized bitmap of the scaled region rather than
an OutOfBoundsError. -/
theorem C6_no_bounds_check (nw nh dw dh : ℚ) (crop : PixelCrop)
    (_hoob : crop.x < 0 ∨ crop.y < 0 ∨ dw < crop.x + crop.width ∨
      dh < crop.y + crop.height) :
    getCroppedImg true nw nh dw dh crop =
      .ok { outWidth := ⌊crop.width * (nw / dw)⌋
            outHeight := ⌊crop.height * (nh / dh)⌋
            srcX := crop.x * (nw / dw)
            srcY := crop.y * (nh / dh)
            srcW := crop.width * (nw / dw)
            srcH := crop.height * (nh / dh) } := rfl

/-- Witness for C6 amended: the region {0, -5, 50, 250} sticks out above and
below a 200×200 display, and the crop still succeeds. -/
theorem C6_no_bounds_check_witness :
    ((0 : ℚ) < 0 ∨ (-5 : ℚ) < 0 ∨ (200 : ℚ) < 0 + 50 ∨ (200 : ℚ) < -5 + 250) ∧
    getCroppedImg true 400 400 200 200 ⟨0, -5, 50, 250⟩ =
      .ok { outWidth := ⌊(50 : ℚ) * ((400 : ℚ) / 200)⌋
            outHeight := ⌊(250 : ℚ) * ((400 : ℚ) / 200)⌋
            srcX := 0 * ((400 : ℚ) / 200)
            srcY := -5 * ((400 : ℚ) / 200)
            srcW := 50 * ((400 : ℚ) / 200)
            srcH := 250 * ((400 : ℚ) / 200) } :=
  ⟨Or.inr (Or.inl (by norm_num)),
    C6_no_bounds_check 400 400 200 200 ⟨0, -5, 50, 250⟩
      (Or.inr (Or.inl (by norm_num)))⟩

/-- One gallery entry (ImageState in src/unnamed/part_001, lines 10–14): a
stable unique id, the original data URL (post any crop) and the composited
formatted data URL. -/
structure ImageState where
  id : String
  originalSrc : String
  formattedSrc : String
deriving DecidableEq

/-- Component state of the gallery App (src/unnamed/part_001, lines 260–275):
the ordered image collection plus error, loading, crop-modal and carousel
state. -/
structure AppState where
  images : List ImageState
  error : Option String
  isLoading : Bool
  croppingImage : Option ImageState
  crop : Option PixelCrop
  cropAspect : Option ℚ
  currentImageIndex : ℕ
deriving DecidableEq

/-- Embeds handleCropClick (src/unnamed/part_001, lines 383–390): look the
entry up by id; when found, open the crop modal on it and reset the aspect
and crop selection; when absent, change nothing at all. -/
def handleCropClick (st : AppState) (entryId : String) : AppState :=
  match st.images.find? (fun img => img.id == entryId) with
  | some imageToCrop =>
      { st with croppingImage := some imageToCrop, cropAspect := none, crop := none }
  | none => st

/-- Embeds handleApplyCrop (src/unnamed/part_001, lines 410–433).
imgLoaded models imgRef.current being non-null and ctxOk the 2d context
being available inside getCroppedImg; croppedUrl and newFormattedUrl stand
for the data URLs produced by getCroppedImg and addBorderToImage on this
entry.  The zero-area early return fires before either URL is computed, so
in that branch the result cannot depend on them. -/
def handleApplyCrop (imgLoaded ctxOk : Bool) (st : AppState)
    (completedCrop : Option PixelCrop) (croppedUrl newFormattedUrl : String) :
    AppState :=
  match st.croppingImage, completedCrop with
  | none, _ => st
  | some _, none => st
  | some croppingImage, some cc =>
    if ¬ imgLoaded then st
    else if cc.width = 0 ∨ cc.height = 0 then { st with croppingImage := none }
    else if ¬ ctxOk then
      { st with error := some "Could not get canvas context for cropping.",
                isLoading := false }
    else
      { st with
          images := st.images.map (fun img =>
            if img.id = croppingImage.id then
              { img with formattedSrc := newFormattedUrl, originalSrc := croppedUrl }
            else img)
          croppingImage := none
          isLoading := false }

/-- Input file at the ingestion boundary: its MIME type, whether the
FileReader read succeeds, whether it decodes as an image, and the data URL
the reader yields. -/
structure JsFile where
  mimeType : String
  readOk : Bool
  decodeOk : Bool
  content : String
deriving DecidableEq

/-- JavaScript's String.prototype.startsWith as used in
file.type.startsWith("image/"): a character-level prefix test. -/
def startsWithJs (s pre : String) : Bool :=
  pre.data.isPrefixOf s.data

/-- Embeds handleFiles together with processAndAddImages
(src/unnamed/part_001, lines 309–358).  fmt stands for addBorderToImage's
composited data URL and ids for the crypto.randomUUID stream.  On a
non-empty file list the gallery is emptied up front; files whose MIME type
does not start with image/ are filtered out; if none survive an error is set;
a read or decode failure rejects the Promise.all, so the batch ends with an
error and the already-emptied gallery stays empty; otherwise one entry per
surviving file is appended, in order, to the emptied gallery. -/
def handleFiles (fmt : String → String) (ids : ℕ → String) (st : AppState)
    (files : List JsFile) : AppState :=
  if files.isEmpty then st
  else
    let cleared := { st with isLoading := true, error := none, images := [],
                             currentImageIndex := 0 }
    let imageFiles := files.filter (fun f => startsWithJs f.mimeType "image/")
    if imageFiles.isEmpty then
      { cleared with error := some "No valid image files selected.",
                     isLoading := false }
    else if imageFiles.any (fun f => !f.readOk) then
      { cleared with error := some "Failed to read the selected file.",
                     isLoading := false }
    else if imageFiles.any (fun f => !f.decodeOk) then
      { cleared with error := some "The image file could not be loaded.",
                     isLoading := false }
    else
      { cleared with
          images := imageFiles.enum.map (fun p =>
            { id := ids p.1, originalSrc := p.2.content,
              formattedSrc := fmt p.2.content })
          isLoading := false }

/-- Concrete gallery entry used by the closed witnesses. -/
def entryA : ImageState := { id := "a", originalSrc := "origA", formattedSrc := "fmtA" }

/-- Second concrete gallery entry used by the closed witnesses. -/
def entryB : ImageState := { id := "b", originalSrc := "origB", formattedSrc := "fmtB" }

/-- Two-entry state with the crop modal open on entryA. -/
def stAB : AppState :=
  { images := [entryA, entryB], error := none, isLoading := false,
    croppingImage := some entryA, crop := none, cropAspect := none,
    currentImageIndex := 0 }

/-- Two-entry state with no crop modal open. -/
def stNoCrop : AppState :=
  { images := [entryA, entryB], error := none, isLoading := false,
    croppingImage := none, crop := none, cropAspect := none,
    currentImageIndex := 0 }

/-- Empty-gallery state. -/
def emptySt : AppState :=
  { images := [], error := none, isLoading := false,
    croppingImage := none, crop := none, cropAspect := none,
    currentImageIndex := 0 }

/-- C5: with a crop modal open and a completed region of zero width or zero
height, applying the crop leaves the image collection — in particular the
targeted entry's formatted output — byte-identical, and the result does not
depend on the crop/re-compose URLs, which are never computed. -/
theorem C5_zero_area_crop_noop (imgLoaded ctxOk : Bool) (st : AppState)
    (ci : ImageState) (cc : PixelCrop) (u v u2 v2 : String)
    (hci : st.croppingImage = some ci) (hz : cc.width = 0 ∨ cc.height = 0) :
    (handleApplyCrop imgLoaded ctxOk st (some cc) u v).images = st.images ∧
    handleApplyCrop imgLoaded ctxOk st (some cc) u v =
      handleApplyCrop imgLoaded ctxOk st (some cc) u2 v2 := by
  unfold handleApplyCrop
  rw [hci]
  by_cases hl : imgLoaded = true
  · simp [hl, hz]
  · simp [hl]

/-- Witness for C5 at a concrete zero-width region on a two-entry gallery. -/
theorem C5_zero_area_crop_noop_witness :
    (stAB.croppingImage = some entryA ∧ ((0 : ℚ) = 0 ∨ (7 : ℚ) = 0)) ∧
    ((handleApplyCrop true true stAB (some ⟨3, 4, 0, 7⟩) "u" "v").images = stAB.images ∧
     handleApplyCrop true true stAB (some ⟨3, 4, 0, 7⟩) "u" "v" =
       handleApplyCrop true true stAB (some ⟨3, 4, 0, 7⟩) "u2" "v2") :=
  ⟨⟨rfl, Or.inl rfl⟩,
    C5_zero_area_crop_noop true true stAB entryA ⟨3, 4, 0, 7⟩ "u" "v" "u2" "v2"
      rfl (Or.inl rfl)⟩

/-- C8: a successful apply-crop on the open entry updates, in the single
setImages call, every gallery position whose id matches the target —
replacing originalSrc and formattedSrc together — keeps the length and every
other position untouched, and a subsequent crop click on the same id picks
up the already-cropped original, not the pre-crop one. -/
theorem C8_apply_crop_atomic (st : AppState) (ci : ImageState) (cc : PixelCrop)
    (u v : String) (hci : st.croppingImage = some ci)
    (hw : cc.width ≠ 0) (hh : cc.height ≠ 0) :
    (handleApplyCrop true true st (some cc) u v).images.length = st.images.length ∧
    (∀ i : ℕ, ∀ img : ImageState, st.images[i]? = some img → img.id = ci.id →
      (handleApplyCrop true true st (some cc) u v).images[i]? =
        some { img with originalSrc := u, formattedSrc := v }) ∧
    (∀ i : ℕ, ∀ img : ImageState, st.images[i]? = some img → img.id ≠ ci.id →
      (handleApplyCrop true true st (some cc) u v).images[i]? = some img) ∧
    (∀ img : ImageState,
      (handleCropClick (handleApplyCrop true true st (some cc) u v) ci.id).croppingImage
          = some img →
        img.originalSrc = u ∧ img.formattedSrc = v) := by
  have himg : (handleApplyCrop true true st (some cc) u v).images =
      st.images.map (fun img =>
        if img.id = ci.id then { img with formattedSrc := v, originalSrc := u }
        else img) := by
    unfold handleApplyCrop
    rw [hci]
    simp [hw, hh]
  have hcrnone : (handleApplyCrop true true st (some cc) u v).croppingImage = none := by
    unfold handleApplyCrop
    rw [hci]
    simp [hw, hh]
  refine ⟨?_, ?_, ?_, ?_⟩
  · rw [himg, List.length_map]
  · intro i img hgi hid
    rw [himg, List.getElem?_map, hgi]
    simp [hid]
  · intro i img hgi hid
    rw [himg, List.getElem?_map, hgi]
    simp [hid]
  · intro img hcrop
    unfold handleCropClick at hcrop
    rcases hfind : (handleApplyCrop true true st (some cc) u v).images.find?
        (fun e => e.id == ci.id) with _ | a
    · rw [hfind] at hcrop
      rw [hcrnone] at hcrop
      exact Option.noConfusion hcrop
    · rw [hfind] at hcrop
      simp only [Option.some.injEq] at hcrop
      have ha1 : a.id = ci.id := by
        have := List.find?_some hfind
        simpa using this
      have ha2 : a ∈ (handleApplyCrop true true st (some cc) u v).images :=
        List.mem_of_find?_eq_some hfind
      rw [himg] at ha2
      rcases List.mem_map.mp ha2 with ⟨b, hb, hfb⟩
      subst hcrop
      by_cases hbid : b.id = ci.id
      · rw [if_pos hbid] at hfb
        rw [← hfb]
        exact ⟨rfl, rfl⟩
      · rw [if_neg hbid] at hfb
        rw [← hfb] at ha1
        exact absurd ha1 hbid

/-- Witness for C8: cropping entryA in the two-entry gallery replaces both of
its URLs at position 0 and leaves entryB at position 1 unchanged. -/
theorem C8_apply_crop_atomic_witness :
    (stAB.croppingImage = some entryA ∧ (3 : ℚ) ≠ 0 ∧ (4 : ℚ) ≠ 0) ∧
    (handleApplyCrop true true stAB (some ⟨1, 2, 3, 4⟩) "cu" "fu").images[0]? =
      some { entryA with originalSrc := "cu", formattedSrc := "fu" } ∧
    (handleApplyCrop true true stAB (some ⟨1, 2, 3, 4⟩) "cu" "fu").images[1]? =
      some entryB :=
  ⟨⟨rfl, by norm_num, by norm_num⟩,
    (C8_apply_crop_atomic stAB entryA ⟨1, 2, 3, 4⟩ "cu" "fu" rfl
        (by norm_num) (by norm_num)).2.1 0 entryA rfl rfl,
    (C8_apply_crop_atomic stAB entryA ⟨1, 2, 3, 4⟩ "cu" "fu" rfl
        (by norm_num) (by norm_num)).2.2.1 1 entryB rfl (by decide)⟩

/-- C9 counterexample: a crop request for the absent id "zzz" on a two-entry
gallery leaves the state — the gallery and the still-empty error field
included — exactly as it was: no NotFoundError (no such error exists in the
code) or any other failure is signalled. -/
theorem C9_cex_missing_id_silent :
    stNoCrop.images.find? (fun img => img.id == "zzz") = none ∧
    handleCropClick stNoCrop "zzz" = stNoCrop ∧
    (handleCropClick stNoCrop "zzz").error = none :=
  ⟨rfl, rfl, rfl⟩

/-- C9 amended: a crop request for an id not in the gallery is a silent
no-op — handleCropClick returns the state unchanged, no error is set, and
with no crop target open handleApplyCrop likewise changes nothing. -/
theorem C9_missing_id_noop (st : AppState) (entryId : String)
    (habs : st.images.find? (fun img => img.id == entryId) = none) :
    handleCropClick st entryId = st ∧
    (st.croppingImage = none →
      ∀ (il ct : Bool) (cc : Option PixelCrop) (u v : String),
        handleApplyCrop il ct st cc u v = st) := by
  constructor
  · unfold handleCropClick
    rw [habs]
  · intro hnone il ct cc u v
    unfold handleApplyCrop
    rw [hnone]

/-- Witness for C9 amended at the concrete absent id "nope". -/
theorem C9_missing_id_noop_witness :
    (stNoCrop.images.find? (fun img => img.id == "nope") = none ∧
     stNoCrop.croppingImage = none) ∧
    (handleCropClick stNoCrop "nope" = stNoCrop ∧
     handleApplyCrop true true stNoCrop (some ⟨0, 0, 5, 5⟩) "u" "v" = stNoCrop) :=
  ⟨⟨rfl, rfl⟩,
    (C9_missing_id_noop stNoCrop "nope" rfl).1,
    (C9_missing_id_noop stNoCrop "nope" rfl).2 rfl true true (some ⟨0, 0, 5, 5⟩) "u" "v"⟩

/-- Concrete valid PNG upload used by the ingestion witnesses. -/
def fileG1 : JsFile :=
  { mimeType := "image/png", readOk := true, decodeOk := true, content := "d1" }

/-- Concrete non-image upload used by the ingestion witnesses. -/
def fileBad : JsFile :=
  { mimeType := "application/pdf", readOk := true, decodeOk := true, content := "d2" }

/-- Concrete valid JPEG upload used by the ingestion witnesses. -/
def fileG2 : JsFile :=
  { mimeType := "image/jpeg", readOk := true, decodeOk := true, content := "d3" }

/-- Stand-in for the compositor's data URL in the closed ingestion witnesses. -/
def fmt0 : String → String := fun s => String.append "fmt:" s

/-- Stand-in for the randomUUID stream in the closed ingestion witnesses. -/
def ids0 : ℕ → String := fun _ => "uuid"

/-- C7 counterexample: ingesting the 3-file batch [image/png,
application/pdf, image/jpeg] into an empty gallery does not fail — the
non-image file is silently filtered out, no error is set, and the two valid
images become visible gallery entries, so the gallery is not empty either. -/
theorem C7_cex_mixed_batch :
    startsWithJs "application/pdf" "image/" = false ∧
    (handleFiles fmt0 ids0 emptySt [fileG1, fileBad, fileG2]).error = none ∧
    (handleFiles fmt0 ids0 emptySt [fileG1, fileBad, fileG2]).images.map
        (fun e => e.originalSrc) = ["d1", "d3"] :=
  ⟨rfl, rfl, rfl⟩

/-- C7 amended: batch ingestion does not fail on a non-image MIME type in
the batch; such files are filtered out.  Whenever at least one file passes
the image/ MIME filter and every surviving file reads and decodes
successfully, the batch succeeds with no error and yields exactly one
gallery entry per surviving file, in order, carrying its data URL. -/
theorem C7_invalid_mime_filtered (fmt : String → String) (ids : ℕ → String)
    (st : AppState) (files : List JsFile)
    (hne : files.filter (fun f => startsWithJs f.mimeType "image/") ≠ [])
    (hread : ∀ f ∈ files.filter (fun f => startsWithJs f.mimeType "image/"),
      f.readOk = true)
    (hdec : ∀ f ∈ files.filter (fun f => startsWithJs f.mimeType "image/"),
      f.decodeOk = true) :
    (handleFiles fmt ids st files).error = none ∧
    (handleFiles fmt ids st files).images.map (fun e => e.originalSrc) =
      (files.filter (fun f => startsWithJs f.mimeType "image/")).map
        (fun f => f.content) := by
  have hfne : files ≠ [] := by
    intro h
    rw [h] at hne
    simp at hne
  have h0 : files.isEmpty = false := by
    simp [List.isEmpty_iff, hfne]
  have h1 : (files.filter (fun f => startsWithJs f.mimeType "image/")).isEmpty
      = false := by
    simp [List.isEmpty_iff, hne]
  have h2 : (files.filter (fun f => startsWithJs f.mimeType "image/")).any
      (fun f => !f.readOk) = false := by
    rw [List.any_eq_false]
    intro f hf
    simp [hread f hf]
  have h3 : (files.filter (fun f => startsWithJs f.mimeType "image/")).any
      (fun f => !f.decodeOk) = false := by
    rw [List.any_eq_false]
    intro f hf
    simp [hdec f hf]
  unfold handleFiles
  simp only [h0, h1, h2, h3, Bool.false_eq_true, if_false]
  refine ⟨by trivial, ?_⟩
  simp only [List.map_map]
  rw [show ((fun e : ImageState => e.originalSrc) ∘ (fun p : ℕ × JsFile =>
        ({ id := ids p.1, originalSrc := p.2.content,
           formattedSrc := fmt p.2.content } : ImageState))) =
      ((fun f : JsFile => f.content) ∘ Prod.snd) from rfl]
  rw [← List.map_map, List.enum_map_snd]

/-- Witness for C7 amended on the concrete 3-file batch with one non-image
file, ingested over a non-empty gallery. -/
theorem C7_invalid_mime_filtered_witness :
    ([fileG1, fileBad, fileG2].filter (fun f => startsWithJs f.mimeType "image/")
        = [fileG1, fileG2]) ∧
    ((handleFiles fmt0 ids0 stNoCrop [fileG1, fileBad, fileG2]).error = none ∧
     (handleFiles fmt0 ids0 stNoCrop [fileG1, fileBad, fileG2]).images.map
         (fun e => e.originalSrc) =
       ([fileG1, fileBad, fileG2].filter (fun f => startsWithJs f.mimeType "image/")).map
         (fun f => f.content)) :=
  ⟨rfl,
    C7_invalid_mime_filtered fmt0 ids0 stNoCrop [fileG1, fileBad, fileG2]
      (by decide) (by decide) (by decide)⟩

/-- C10: ingesting a non-empty file list erases the pre-existing gallery
unconditionally — the outcome never depends on the previous images — and
whenever the batch fails (no file passes the MIME filter, or a surviving
file fails to read or decode) the gallery ends empty, the prior entries
lost. -/
theorem C10_ingest_clears_gallery (fmt : String → String) (ids : ℕ → String)
    (st : AppState) (files : List JsFile) (hne : files ≠ []) :
    handleFiles fmt ids st files =
      handleFiles fmt ids { st with images := [] } files ∧
    (files.filter (fun f => startsWithJs f.mimeType "image/") = [] ∨
     (∃ f ∈ files.filter (fun f => startsWithJs f.mimeType "image/"),
        f.readOk = false) ∨
     (∃ f ∈ files.filter (fun f => startsWithJs f.mimeType "image/"),
        f.decodeOk = false) →
      (handleFiles fmt ids st files).images = []) := by
  obtain ⟨f0, fs, rfl⟩ := List.exists_cons_of_ne_nil hne
  constructor
  · rfl
  · intro hfail
    rcases hfail with hempty | ⟨f, hf, hrf⟩ | ⟨f, hf, hdf⟩
    · have h1 : (((f0 :: fs).filter (fun f => startsWithJs f.mimeType "image/"))).isEmpty
          = true := by
        simp [List.isEmpty_iff, hempty]
      unfold handleFiles
      simp [h1]
    · have h1 : (((f0 :: fs).filter (fun f => startsWithJs f.mimeType "image/"))).isEmpty
          = false := by
        rcases ((f0 :: fs).filter (fun f => startsWithJs f.mimeType "image/")).eq_nil_or_concat
          with hcon | hcon
        · rw [hcon] at hf
          exact absurd hf (List.not_mem_nil f)
        · rcases hcon with ⟨l2, b, hcon⟩
          rw [hcon]
          simp
      have h2 : (((f0 :: fs).filter (fun f => startsWithJs f.mimeType "image/"))).any
          (fun f => !f.readOk) = true :=
        List.any_eq_true.mpr ⟨f, hf, by simp [hrf]⟩
      unfold handleFiles
      simp [h1, h2]
    · have h1 : (((f0 :: fs).filter (fun f => startsWithJs f.mimeType "image/"))).isEmpty
          = false := by
        rcases ((f0 :: fs).filter (fun f => startsWithJs f.mimeType "image/")).eq_nil_or_concat
          with hcon | hcon
        · rw [hcon] at hf
          exact absurd hf (List.not_mem_nil f)
        · rcases hcon with ⟨l2, b, hcon⟩
          rw [hcon]
          simp
      have h3 : (((f0 :: fs).filter (fun f => startsWithJs f.mimeType "image/"))).any
          (fun f => !f.decodeOk) = true :=
        List.any_eq_true.mpr ⟨f, hf, by simp [hdf]⟩
      by_cases h2 : (((f0 :: fs).filter (fun f => startsWithJs f.mimeType "image/"))).any
          (fun f => !f.readOk) = true
      · unfold handleFiles
        simp [h1, h2]
      · have h2f : (((f0 :: fs).filter (fun f => startsWithJs f.mimeType "image/"))).any
            (fun f => !f.readOk) = false := by
          cases hval : (((f0 :: fs).filter (fun f => startsWithJs f.mimeType "image/"))).any
              (fun f => !f.readOk)
          · rfl
          · exact absurd hval h2
        unfold handleFiles
        simp [h1, h2f, h3]

/-- Witness for C10: a one-file batch holding only a PDF wipes the two-entry
gallery and ends with an empty gallery. -/
theorem C10_ingest_clears_gallery_witness :
    ([fileBad] ≠ ([] : List JsFile) ∧
     [fileBad].filter (fun f => startsWithJs f.mimeType "image/") = []) ∧
    (handleFiles fmt0 ids0 stNoCrop [fileBad] =
       handleFiles fmt0 ids0 { stNoCrop with images := [] } [fileBad] ∧
     (handleFiles fmt0 ids0 stNoCrop [fileBad]).images = []) :=
  ⟨⟨by decide, by decide⟩,
    (C10_ingest_clears_gallery fmt0 ids0 stNoCrop [fileBad] (by decide)).1,
    (C10_ingest_clears_gallery fmt0 ids0 stNoCrop [fileBad] (by decide)).2
      (Or.inl (by decide))⟩
